import Mathlib

/-!
Verification of TheWinds071/serial-assistant: a Wails-based serial terminal
(app.go) together with a J-Link RTT soft-reader layer (package jlink).
The repository snapshot contains app.go, the Windows variant of the dynamic
binding layer (openLibrary/closeLibrary) and the jlink test files; the body
of the jlink package (parseBufferDesc, readSoftRTT, JLinkWrapper) is not in
the snapshot, so those components are modelled from the specification and
marked as such in their doc comments.
-/

namespace SerialAssistant

/-- Little-endian decoding of a 32-bit unsigned integer from four
consecutive bytes of a byte list, starting at `off` (positions past the end
read as 0). -/
def readLE32 (bytes : List Nat) (off : Nat) : Nat :=
  bytes.getD off 0 + bytes.getD (off + 1) 0 * 256 +
    bytes.getD (off + 2) 0 * 65536 + bytes.getD (off + 3) 0 * 16777216

/-- The RTT buffer descriptor, as in the jlink tests: `NamePtr`, `BufferPtr`
and `Size` decoded from the first twelve bytes of the 24-byte record. -/
structure RTTBufferDesc where
  NamePtr : Nat
  BufferPtr : Nat
  Size : Nat
deriving Repr, DecidableEq

/-- Modelled from the spec: `parseBufferDesc` (Buffer Descriptor Codec,
spec §4.2) — the jlink package body is absent from the snapshot, only its
test `TestParseBufferDesc` is. Pure, total structural decode of three
32-bit little-endian unsigned integers at offsets 0, 4 and 8 of the
24-byte span, with no semantic validation of the fields. -/
def parseBufferDesc (bytes : List Nat) : RTTBufferDesc :=
  { NamePtr := readLE32 bytes 0
    BufferPtr := readLE32 bytes 4
    Size := readLE32 bytes 8 }

/-- Little-endian encoding of a 32-bit unsigned integer into four bytes. -/
def encodeLE32 (v : Nat) : List Nat :=
  [v % 256, v / 256 % 256, v / 65536 % 256, v / 16777216 % 256]

/-- A 24-byte span encoding a buffer descriptor, the three trailing words
(write offset, read offset, flags) zero, as in `TestParseBufferDesc`. -/
def encodeDesc (namePtr bufferPtr size : Nat) : List Nat :=
  encodeLE32 namePtr ++ encodeLE32 bufferPtr ++ encodeLE32 size ++
    encodeLE32 0 ++ encodeLE32 0 ++ encodeLE32 0

/-- The exact 24-byte test vector of `TestParseBufferDesc`. -/
def testDescBytes : List Nat :=
  [0x00, 0x10, 0x00, 0x20,
   0x00, 0x20, 0x00, 0x20,
   0x00, 0x04, 0x00, 0x00,
   0, 0, 0, 0, 0, 0, 0, 0, 0, 0, 0, 0]

/-- The RTT soft-reader's error taxonomy, spec §7 (only the variants the
claims exercise). -/
inductive RTTError where
  | InvalidRingState
deriving Repr, DecidableEq

/-- One memory-read issued against the probe collaborator: start address and
length in bytes. -/
structure ReadOp where
  addr : Nat
  len : Nat
deriving Repr, DecidableEq

/-- Observable outcome of one `readSoftRTT` attempt: the returned data
(`none` on error), the payload memory-reads issued (in order), the read
offset written back to the target (`none` when no write-back occurs), and
the error, if any. -/
structure SoftRTTOutcome where
  data : Option (List Nat)
  payloadReads : List ReadOp
  writeBack : Option Nat
  err : Option RTTError
deriving Repr, DecidableEq

/-- Bytes delivered by a probe memory-read of `len` bytes starting at
`addr`, with `mem` the target memory. -/
def memRead (mem : Nat → Nat) (addr len : Nat) : List Nat :=
  (List.range len).map fun i => mem (addr + i)

/-- Modelled from the spec: the unread byte count of the ring,
`available = (WriteOffset - ReadOffset + Size) mod Size` (spec §4.3 step 4),
written with the subtraction reordered so it cannot truncate in `Nat`; the
two agree whenever the offsets have passed validation. -/
def availableBytes (size wrOff rdOff : Nat) : Nat :=
  (wrOff + size - rdOff) % size

/-- Modelled from the spec: the clamp of step 5,
`toRead = min(available, capacity)`. -/
def toReadCount (size wrOff rdOff capacity : Nat) : Nat :=
  min (availableBytes size wrOff rdOff) capacity

/-- Modelled from the spec: `readSoftRTT` (spec §4.3 steps 3–7) — the jlink
package body is absent from the snapshot, only its tests are. Inputs: the
cached up-buffer descriptor `d`, the freshly read write/read offsets, the
capacity of the reusable destination buffer, and the target memory `mem`.
Step 3 validates the offsets before any allocation or length computation
(modelled as: the invalid branch issues no payload read and returns no
data); step 4 returns zero bytes with no error and no write-back when
nothing is unread; step 6 issues one contiguous read, or two reads when the
span wraps; step 7 writes back the advanced read offset. -/
def readSoftRTT (d : RTTBufferDesc) (wrOff rdOff capacity : Nat)
    (mem : Nat → Nat) : SoftRTTOutcome :=
  if 0 < d.Size ∧ wrOff < d.Size ∧ rdOff < d.Size then
    if availableBytes d.Size wrOff rdOff = 0 then
      { data := some [], payloadReads := [], writeBack := none, err := none }
    else if rdOff + toReadCount d.Size wrOff rdOff capacity ≤ d.Size then
      { data := some (memRead mem (d.BufferPtr + rdOff)
          (toReadCount d.Size wrOff rdOff capacity))
        payloadReads := [⟨d.BufferPtr + rdOff, toReadCount d.Size wrOff rdOff capacity⟩]
        writeBack := some ((rdOff + toReadCount d.Size wrOff rdOff capacity) % d.Size)
        err := none }
    else
      { data := some (memRead mem (d.BufferPtr + rdOff) (d.Size - rdOff) ++
          memRead mem d.BufferPtr (toReadCount d.Size wrOff rdOff capacity - (d.Size - rdOff)))
        payloadReads := [⟨d.BufferPtr + rdOff, d.Size - rdOff⟩,
          ⟨d.BufferPtr, toReadCount d.Size wrOff rdOff capacity - (d.Size - rdOff)⟩]
        writeBack := some ((rdOff + toReadCount d.Size wrOff rdOff capacity) % d.Size)
        err := none }
  else
    { data := none, payloadReads := [], writeBack := none,
      err := some RTTError.InvalidRingState }

/-- The host-side read offset after `n` polling iterations: each iteration
runs the reader on the current offsets and advances the read offset by the
write-back when one occurred. -/
def pollRd (d : RTTBufferDesc) (wrOff capacity : Nat) (mem : Nat → Nat)
    (rd : Nat) : Nat → Nat
  | 0 => rd
  | n + 1 =>
    ((readSoftRTT d wrOff (pollRd d wrOff capacity mem rd n) capacity mem).writeBack).getD
      (pollRd d wrOff capacity mem rd n)

/-- Parity values of the go.bug.st/serial library, as mapped by
`OpenSerial` (app.go lines 53–68). -/
inductive Parity where
  | noParity
  | oddParity
  | evenParity
  | markParity
  | spaceParity
deriving Repr, DecidableEq

/-- Stop-bit values of the go.bug.st/serial library, as mapped by
`OpenSerial` (app.go lines 70–81). -/
inductive StopBits where
  | oneStopBit
  | onePointFiveStopBits
  | twoStopBits
deriving Repr, DecidableEq

/-- The serial `Mode` record assembled by `OpenSerial` (app.go lines
83–89). -/
structure Mode where
  baudRate : Int
  dataBits : Int
  parity : Parity
  stopBits : StopBits
deriving Repr, DecidableEq

/-- The parity mapping switch of `OpenSerial` (app.go lines 53–68): the
five recognised names, every other name falling through to `NoParity`. -/
def mapParity (parityName : String) : Parity :=
  if parityName = "None" then Parity.noParity
  else if parityName = "Odd" then Parity.oddParity
  else if parityName = "Even" then Parity.evenParity
  else if parityName = "Mark" then Parity.markParity
  else if parityName = "Space" then Parity.spaceParity
  else Parity.noParity

/-- The stop-bit mapping switch of `OpenSerial` (app.go lines 70–81): 1, 15
(meaning 1.5) and 2 recognised, every other value falling through to
`OneStopBit`. -/
def mapStopBits (stopBits : Int) : StopBits :=
  if stopBits = 1 then StopBits.oneStopBit
  else if stopBits = 15 then StopBits.onePointFiveStopBits
  else if stopBits = 2 then StopBits.twoStopBits
  else StopBits.oneStopBit

/-- The `App` connection state of app.go relevant to the claims:
`isConnected`, and whether `readStopChan` has been closed. -/
structure AppState where
  isConnected : Bool
  stopClosed : Bool
deriving Repr, DecidableEq

/-- An operation issued against the underlying serial port handle. -/
inductive PortEvent where
  | portOpen (mode : Mode)
  | portClose
  | portWrite (data : String)
  | portRead
deriving Repr, DecidableEq

/-- `OpenSerial` from app.go (lines 45–103). `openPort` models
`serial.Open`, returning `none` on success or the platform error string.
Result: the new state, the returned message, and the `Mode` passed to
`serial.Open` (`none` when `serial.Open` was never called). -/
def OpenSerial (openPort : String → Mode → Option String) (s : AppState)
    (portName : String) (baudRate dataBits : Int) (stopBits : Int)
    (parityName : String) : AppState × String × Option Mode :=
  if s.isConnected = true then (s, "Port already open", none)
  else
    match openPort portName
        (Mode.mk baudRate dataBits (mapParity parityName) (mapStopBits stopBits)) with
    | some e => (s, "Error: " ++ e,
        some (Mode.mk baudRate dataBits (mapParity parityName) (mapStopBits stopBits)))
    | none => ({ isConnected := true, stopClosed := false }, "Success",
        some (Mode.mk baudRate dataBits (mapParity parityName) (mapStopBits stopBits)))

/-- `CloseSerial` from app.go (lines 133–150): under the mutex, when not
connected it returns "Port not open" without touching the port; otherwise
it closes the stop channel, calls `port.Close()` exactly once, clears
`isConnected`, and reports the close error if any. `closeErr` models the
result of the underlying `port.Close()`. Result: the new state, the
returned message, and the port events issued. -/
def CloseSerial (closeErr : Option String) (s : AppState) :
    AppState × String × List PortEvent :=
  if s.isConnected = false then (s, "Port not open", [])
  else
    ({ isConnected := false, stopClosed := true },
      match closeErr with
      | none => "Closed"
      | some e => "Error closing: " ++ e,
      [PortEvent.portClose])

/-- `SendData` from app.go (lines 153–168): under the mutex, when not
connected it returns "Error: Port not connected" without touching the port;
otherwise it writes the bytes. `writeErr` models the result of
`port.Write`. -/
def SendData (writeErr : Option String) (s : AppState) (data : String) :
    AppState × String × List PortEvent :=
  if s.isConnected = false then (s, "Error: Port not connected", [])
  else
    (s,
      match writeErr with
      | none => "Sent"
      | some e => "Send error: " ++ e,
      [PortEvent.portWrite data])

/-- One iteration of `readLoop` from app.go (lines 106–130): the `select`
takes the stop-channel case once `readStopChan` is closed and the loop
returns without touching the port; otherwise the default case issues a
blocking `port.Read`. Result: whether the loop terminates, and the port
events issued by the iteration. -/
def readLoopIter (s : AppState) : Bool × List PortEvent :=
  if s.stopClosed = true then (true, [])
  else (false, [PortEvent.portRead])

/-- `openLibrary` from the Windows dynamic binding layer: it calls
`syscall.LoadLibrary` and on failure wraps the platform error as
`fmt.Errorf("failed to load library %s: %w", name, err)`. `loadLibrary`
models the platform loader, returning a handle or the platform error
string. -/
def openLibrary (loadLibrary : String → Except String Nat) (name : String) :
    Except String Nat :=
  match loadLibrary name with
  | Except.error e => Except.error ("failed to load library " ++ name ++ ": " ++ e)
  | Except.ok h => Except.ok h

/-- A string occurs contiguously inside another. -/
def strContains (hay needle : String) : Prop :=
  ∃ pre post : String, hay = pre ++ needle ++ post

/-- An action in the straight-line trace of one app.go method: acquiring or
releasing `a.mutex`, or an operation against the serial port handle. -/
inductive LockAction where
  | lock
  | unlock
  | portAct (opName : String)
deriving Repr, DecidableEq

/-- Trace of `OpenSerial` (app.go lines 45–103): `a.mutex.Lock()`, the call
to `serial.Open`, then the deferred `a.mutex.Unlock()`. -/
def openSerialTrace : List LockAction :=
  [LockAction.lock, LockAction.portAct "open", LockAction.unlock]

/-- Trace of `CloseSerial` (app.go lines 133–150): `a.mutex.Lock()`,
`a.port.Close()`, then the deferred `a.mutex.Unlock()`. -/
def closeSerialTrace : List LockAction :=
  [LockAction.lock, LockAction.portAct "close", LockAction.unlock]

/-- Trace of `SendData` (app.go lines 153–168): `a.mutex.Lock()`,
`a.port.Write`, then the deferred `a.mutex.Unlock()`. -/
def sendDataTrace : List LockAction :=
  [LockAction.lock, LockAction.portAct "write", LockAction.unlock]

/-- Trace of one default-case iteration of `readLoop` (app.go lines
106–130): `a.port.Read(buff)` is called with no `a.mutex.Lock()` around
it. -/
def readLoopReadTrace : List LockAction :=
  [LockAction.portAct "read"]

/-- Checks, carrying the current lock depth, that every port operation in
the trace happens while the mutex is held. -/
def opsGuarded (depth : Nat) : List LockAction → Bool
  | [] => true
  | LockAction.lock :: rest => opsGuarded (depth + 1) rest
  | LockAction.unlock :: rest => opsGuarded (depth - 1) rest
  | LockAction.portAct _ :: rest => decide (0 < depth) && opsGuarded depth rest

/-- Every port operation of the trace holds the connection mutex. -/
def holdsMutexForPortOps (t : List LockAction) : Bool :=
  opsGuarded 0 t

theorem memRead_length (mem : Nat → Nat) (addr len : Nat) :
    (memRead mem addr len).length = len := by
  simp [memRead]

theorem availableBytes_lt (size wrOff rdOff : Nat) (h : 0 < size) :
    availableBytes size wrOff rdOff < size :=
  Nat.mod_lt _ h

theorem availableBytes_self (size off : Nat) : availableBytes size off off = 0 := by
  unfold availableBytes
  have h : off + size - off = size := by omega
  rw [h, Nat.mod_self]

theorem readSoftRTT_equal_offsets (d : RTTBufferDesc) (off capacity : Nat)
    (mem : Nat → Nat) (h0 : 0 < d.Size) (hoff : off < d.Size) :
    readSoftRTT d off off capacity mem =
      { data := some [], payloadReads := [], writeBack := none, err := none } := by
  unfold readSoftRTT
  rw [if_pos ⟨h0, hoff, hoff⟩, if_pos (availableBytes_self d.Size off)]

/-- C5: `parseBufferDesc` is a pure total structural decode of the 32-bit
little-endian words at offsets 0, 4 and 8 of the 24-byte span into
`NamePtr`, `BufferPtr` and `Size`: decoding any encoded descriptor recovers
exactly the encoded fields, with no semantic validation involved. -/
theorem parseBufferDesc_roundTrip (n b s : Nat)
    (hn : n < 4294967296) (hb : b < 4294967296) (hs : s < 4294967296) :
    parseBufferDesc (encodeDesc n b s) = { NamePtr := n, BufferPtr := b, Size := s } := by
  simp only [parseBufferDesc, encodeDesc, encodeLE32, readLE32, List.cons_append,
    List.nil_append, List.getD, List.get?, Option.getD, RTTBufferDesc.mk.injEq]
  refine ⟨?_, ?_, ?_⟩ <;> omega

/-- C5 witness: on the exact 24-byte span of `TestParseBufferDesc`, the
decoder yields `NamePtr = 0x20001000`, `BufferPtr = 0x20002000`,
`Size = 1024`. -/
theorem parseBufferDesc_roundTrip_witness :
    parseBufferDesc testDescBytes =
      { NamePtr := 0x20001000, BufferPtr := 0x20002000, Size := 1024 } := by
  have h := parseBufferDesc_roundTrip 0x20001000 0x20002000 1024
    (by decide) (by decide) (by decide)
  have he : encodeDesc 0x20001000 0x20002000 1024 = testDescBytes := by decide
  rw [he] at h
  exact h

/-- C1: whenever the descriptor fields fail the bounds check (`Size = 0`,
or `WriteOffset ≥ Size`, or `ReadOffset ≥ Size`), `readSoftRTT` returns
`InvalidRingState`, produces no output data, and issues no payload
memory-read (the rejection happens before any allocation or length
computation derived from the fields), for all magnitudes of the corrupted
field. -/
theorem readSoftRTT_rejects_invalid (d : RTTBufferDesc) (wrOff rdOff capacity : Nat)
    (mem : Nat → Nat) (h : d.Size = 0 ∨ d.Size ≤ wrOff ∨ d.Size ≤ rdOff) :
    (readSoftRTT d wrOff rdOff capacity mem).err = some RTTError.InvalidRingState ∧
    (readSoftRTT d wrOff rdOff capacity mem).data = none ∧
    (readSoftRTT d wrOff rdOff capacity mem).payloadReads = [] := by
  have hc : ¬(0 < d.Size ∧ wrOff < d.Size ∧ rdOff < d.Size) := by omega
  unfold readSoftRTT
  rw [if_neg hc]
  exact ⟨rfl, rfl, rfl⟩

/-- C1 witness: the `TestMemorySafetyBoundsChecking` scenario — `Size =
1024`, `WriteOffset = 0xFFFFFFFF`, `ReadOffset = 0` — is rejected with
`InvalidRingState`, no data, and no payload read. -/
theorem readSoftRTT_rejects_invalid_witness :
    (readSoftRTT ⟨0, 0x20001000, 1024⟩ 0xFFFFFFFF 0 4096 (fun _ => 0)).err =
      some RTTError.InvalidRingState ∧
    (readSoftRTT ⟨0, 0x20001000, 1024⟩ 0xFFFFFFFF 0 4096 (fun _ => 0)).data = none ∧
    (readSoftRTT ⟨0, 0x20001000, 1024⟩ 0xFFFFFFFF 0 4096 (fun _ => 0)).payloadReads = [] :=
  readSoftRTT_rejects_invalid ⟨0, 0x20001000, 1024⟩ 0xFFFFFFFF 0 4096 (fun _ => 0)
    (by decide)

/-- C2: for every valid descriptor, the unread byte count the reader
computes equals `(WriteOffset - ReadOffset + Size) mod Size` (as integers),
lies in `[0, Size)`, and is zero exactly when the offsets coincide. -/
theorem availableBytes_spec (size wrOff rdOff : Nat)
    (h : 0 < size ∧ wrOff < size ∧ rdOff < size) :
    (availableBytes size wrOff rdOff : Int) =
      ((wrOff : Int) - (rdOff : Int) + (size : Int)) % (size : Int) ∧
    availableBytes size wrOff rdOff < size ∧
    (availableBytes size wrOff rdOff = 0 ↔ wrOff = rdOff) := by
  obtain ⟨h0, hw, hr⟩ := h
  refine ⟨?_, Nat.mod_lt _ h0, ?_⟩
  · unfold availableBytes
    rw [Int.ofNat_emod]
    congr 1
    omega
  · unfold availableBytes
    rcases le_or_lt rdOff wrOff with hc | hc
    · have he : wrOff + size - rdOff = size + (wrOff - rdOff) := by omega
      rw [he, Nat.add_mod_left, Nat.mod_eq_of_lt (by omega)]
      omega
    · rw [Nat.mod_eq_of_lt (by omega)]
      omega

/-- C2 witness: for `Size = 100`, `WriteOffset = 10`, `ReadOffset = 90`
the reader computes 20 unread bytes, matching the integer formula, below
`Size`, and nonzero because the offsets differ. -/
theorem availableBytes_spec_witness :
    (availableBytes 100 10 90 : Int) =
      ((10 : Int) - (90 : Int) + (100 : Int)) % (100 : Int) ∧
    availableBytes 100 10 90 < 100 ∧
    (availableBytes 100 10 90 = 0 ↔ (10 : Nat) = 90) :=
  availableBytes_spec 100 10 90 (by decide)

/-- C3: for every valid descriptor and destination capacity, the reader
returns exactly `min available capacity` bytes; in particular when
`available` exceeds the capacity it returns exactly `capacity` bytes,
never more. -/
theorem readSoftRTT_clamps (d : RTTBufferDesc) (wrOff rdOff capacity : Nat)
    (mem : Nat → Nat) (h : 0 < d.Size ∧ wrOff < d.Size ∧ rdOff < d.Size) :
    ∃ bs : List Nat, (readSoftRTT d wrOff rdOff capacity mem).data = some bs ∧
      bs.length = min (availableBytes d.Size wrOff rdOff) capacity ∧
      (capacity < availableBytes d.Size wrOff rdOff → bs.length = capacity) := by
  obtain ⟨h0, hw, hr⟩ := h
  have ha : availableBytes d.Size wrOff rdOff < d.Size := availableBytes_lt _ _ _ h0
  unfold readSoftRTT
  rw [if_pos ⟨h0, hw, hr⟩]
  by_cases hz : availableBytes d.Size wrOff rdOff = 0
  · rw [if_pos hz]
    exact ⟨[], rfl, by simp [hz], by omega⟩
  · rw [if_neg hz]
    by_cases h1 : rdOff + toReadCount d.Size wrOff rdOff capacity ≤ d.Size
    · rw [if_pos h1]
      refine ⟨_, rfl, ?_, ?_⟩
      · simp only [memRead_length, toReadCount]
      · simp only [memRead_length, toReadCount]
        omega
    · rw [if_neg h1]
      have ht : toReadCount d.Size wrOff rdOff capacity ≤ availableBytes d.Size wrOff rdOff :=
        Nat.min_le_left _ _
      refine ⟨_, rfl, ?_, ?_⟩ <;>
        simp only [List.length_append, memRead_length, toReadCount] at * <;> omega

/-- C3 witness: with `Size = 100`, `WriteOffset = 10`, `ReadOffset = 90`
(20 bytes available) and a destination of capacity 5, the reader returns
exactly 5 bytes. -/
theorem readSoftRTT_clamps_witness :
    ∃ bs : List Nat, (readSoftRTT ⟨0, 1000, 100⟩ 10 90 5 (fun _ => 0)).data = some bs ∧
      bs.length = min (availableBytes 100 10 90) 5 ∧
      (5 < availableBytes 100 10 90 → bs.length = 5) :=
  readSoftRTT_clamps ⟨0, 1000, 100⟩ 10 90 5 (fun _ => 0) (by decide)

/-- C4: for every valid descriptor whose unread span wraps
(`ReadOffset + toRead > Size`), the reader issues exactly two memory-reads
— first `Size - ReadOffset` bytes at `BufferPtr + ReadOffset`, then the
remainder at `BufferPtr` — and returns their concatenation in that
order. -/
theorem readSoftRTT_wraparound (d : RTTBufferDesc) (wrOff rdOff capacity : Nat)
    (mem : Nat → Nat) (hv : 0 < d.Size ∧ wrOff < d.Size ∧ rdOff < d.Size)
    (hwrap : d.Size < rdOff + toReadCount d.Size wrOff rdOff capacity) :
    (readSoftRTT d wrOff rdOff capacity mem).payloadReads =
      [⟨d.BufferPtr + rdOff, d.Size - rdOff⟩,
       ⟨d.BufferPtr, toReadCount d.Size wrOff rdOff capacity - (d.Size - rdOff)⟩] ∧
    (readSoftRTT d wrOff rdOff capacity mem).data =
      some (memRead mem (d.BufferPtr + rdOff) (d.Size - rdOff) ++
        memRead mem d.BufferPtr
          (toReadCount d.Size wrOff rdOff capacity - (d.Size - rdOff))) := by
  obtain ⟨h0, hw, hr⟩ := hv
  have hz : availableBytes d.Size wrOff rdOff ≠ 0 := by
    intro hzero
    have : toReadCount d.Size wrOff rdOff capacity = 0 := by
      simp [toReadCount, hzero]
    omega
  unfold readSoftRTT
  rw [if_pos ⟨h0, hw, hr⟩, if_neg hz, if_neg (by omega)]
  exact ⟨rfl, rfl⟩

/-- C4 witness: with `Size = 100`, `ReadOffset = 90`, `WriteOffset = 10`
and `BufferPtr = 1000`, the reader issues two sub-reads of lengths 10 and
10 — at addresses 1090 then 1000 — and `available = 20`. -/
theorem readSoftRTT_wraparound_witness :
    (readSoftRTT ⟨0, 1000, 100⟩ 10 90 4096 (fun _ => 0)).payloadReads =
      [⟨1090, 10⟩, ⟨1000, 10⟩] ∧ availableBytes 100 10 90 = 20 := by
  have h := readSoftRTT_wraparound ⟨0, 1000, 100⟩ 10 90 4096 (fun _ => 0)
    (by decide) (by decide)
  exact ⟨h.1.trans (by decide), by decide⟩

/-- C6: when `WriteOffset = ReadOffset` on a valid descriptor, every
repetition of the read attempt returns zero bytes with no error and
performs no read-offset write-back, the host-side read offset staying
unchanged across all iterations. -/
theorem readSoftRTT_empty_idempotent (d : RTTBufferDesc) (off capacity : Nat)
    (mem : Nat → Nat) (h : 0 < d.Size ∧ off < d.Size) (n : Nat) :
    pollRd d off capacity mem off n = off ∧
    (readSoftRTT d off (pollRd d off capacity mem off n) capacity mem).data = some [] ∧
    (readSoftRTT d off (pollRd d off capacity mem off n) capacity mem).err = none ∧
    (readSoftRTT d off (pollRd d off capacity mem off n) capacity mem).writeBack = none := by
  obtain ⟨h0, hoff⟩ := h
  induction n with
  | zero =>
    refine ⟨rfl, ?_⟩
    rw [pollRd, readSoftRTT_equal_offsets d off capacity mem h0 hoff]
    exact ⟨rfl, rfl, rfl⟩
  | succ n ih =>
    have hstep : pollRd d off capacity mem off (n + 1) = off := by
      rw [pollRd, ih.1, readSoftRTT_equal_offsets d off capacity mem h0 hoff]
      rfl
    refine ⟨hstep, ?_⟩
    rw [hstep, readSoftRTT_equal_offsets d off capacity mem h0 hoff]
    exact ⟨rfl, rfl, rfl⟩

/-- C6 witness: with `Size = 100` and both offsets at 7, ten polling
iterations leave the read offset at 7, and the tenth read attempt still
returns zero bytes, no error, and no write-back. -/
theorem readSoftRTT_empty_idempotent_witness :
    pollRd ⟨0, 1000, 100⟩ 7 4096 (fun _ => 0) 7 10 = 7 ∧
    (readSoftRTT ⟨0, 1000, 100⟩ 7 (pollRd ⟨0, 1000, 100⟩ 7 4096 (fun _ => 0) 7 10)
      4096 (fun _ => 0)).data = some [] ∧
    (readSoftRTT ⟨0, 1000, 100⟩ 7 (pollRd ⟨0, 1000, 100⟩ 7 4096 (fun _ => 0) 7 10)
      4096 (fun _ => 0)).err = none ∧
    (readSoftRTT ⟨0, 1000, 100⟩ 7 (pollRd ⟨0, 1000, 100⟩ 7 4096 (fun _ => 0) 7 10)
      4096 (fun _ => 0)).writeBack = none :=
  readSoftRTT_empty_idempotent ⟨0, 1000, 100⟩ 7 4096 (fun _ => 0) (by decide) 10

/-- C7: on a connected session, `CloseSerial` issues exactly one
`port.Close()`; a second `CloseSerial` returns "Port not open" without
closing again; a `SendData` after the close fails with the not-connected
error without touching the port; and a read-loop iteration after the close
terminates without touching the port. -/
theorem closeSerial_releases_once (ce1 ce2 we : Option String) (data : String)
    (s : AppState) (h : s.isConnected = true) :
    (CloseSerial ce1 s).2.2 = [PortEvent.portClose] ∧
    (CloseSerial ce1 s).1.isConnected = false ∧
    (CloseSerial ce2 (CloseSerial ce1 s).1).2.1 = "Port not open" ∧
    (CloseSerial ce2 (CloseSerial ce1 s).1).2.2 = [] ∧
    (SendData we (CloseSerial ce1 s).1 data).2.1 = "Error: Port not connected" ∧
    (SendData we (CloseSerial ce1 s).1 data).2.2 = [] ∧
    (readLoopIter (CloseSerial ce1 s).1).1 = true ∧
    (readLoopIter (CloseSerial ce1 s).1).2 = [] := by
  simp [CloseSerial, SendData, readLoopIter, h]

/-- C7 witness: closing a connected session issues one close; the repeated
close, a send, and a read-loop iteration afterwards all leave the port
untouched. -/
theorem closeSerial_releases_once_witness :
    (CloseSerial none ⟨true, false⟩).2.2 = [PortEvent.portClose] ∧
    (CloseSerial none ⟨true, false⟩).1.isConnected = false ∧
    (CloseSerial none (CloseSerial none ⟨true, false⟩).1).2.1 = "Port not open" ∧
    (CloseSerial none (CloseSerial none ⟨true, false⟩).1).2.2 = [] ∧
    (SendData none (CloseSerial none ⟨true, false⟩).1 "abc").2.1 =
      "Error: Port not connected" ∧
    (SendData none (CloseSerial none ⟨true, false⟩).1 "abc").2.2 = [] ∧
    (readLoopIter (CloseSerial none ⟨true, false⟩).1).1 = true ∧
    (readLoopIter (CloseSerial none ⟨true, false⟩).1).2 = [] :=
  closeSerial_releases_once none none none "abc" ⟨true, false⟩ rfl

/-- C8: whenever the platform loader cannot map the library,
`openLibrary` returns an error message that contains both the library name
and the underlying platform error, and returns no usable handle — the
failure is reported to the caller, never swallowed. -/
theorem openLibrary_reports_failure (loadLibrary : String → Except String Nat)
    (name e : String) (h : loadLibrary name = Except.error e) :
    openLibrary loadLibrary name =
      Except.error ("failed to load library " ++ name ++ ": " ++ e) ∧
    strContains ("failed to load library " ++ name ++ ": " ++ e) name ∧
    strContains ("failed to load library " ++ name ++ ": " ++ e) e ∧
    ∀ handle : Nat, openLibrary loadLibrary name ≠ Except.ok handle := by
  refine ⟨?_, ?_, ?_, ?_⟩
  · simp [openLibrary, h]
  · refine ⟨"failed to load library ", ": " ++ e, ?_⟩
    simp [String.append_assoc]
  · refine ⟨"failed to load library " ++ name ++ ": ", "", ?_⟩
    simp [String.append_assoc]
  · intro handle
    simp [openLibrary, h]

/-- C8 witness: loading a nonexistent library reports the wrapped error
carrying the library name and the loader's message, and yields no
handle. -/
theorem openLibrary_reports_failure_witness :
    openLibrary (fun _ => Except.error "The specified module could not be found.")
        "totally_nonexistent_library_xyz123.so" =
      Except.error ("failed to load library " ++ "totally_nonexistent_library_xyz123.so" ++
        ": " ++ "The specified module could not be found.") ∧
    strContains ("failed to load library " ++ "totally_nonexistent_library_xyz123.so" ++
      ": " ++ "The specified module could not be found.")
      "totally_nonexistent_library_xyz123.so" ∧
    strContains ("failed to load library " ++ "totally_nonexistent_library_xyz123.so" ++
      ": " ++ "The specified module could not be found.")
      "The specified module could not be found." ∧
    ∀ handle : Nat,
      openLibrary (fun _ => Except.error "The specified module could not be found.")
        "totally_nonexistent_library_xyz123.so" ≠ Except.ok handle :=
  openLibrary_reports_failure (fun _ => Except.error "The specified module could not be found.")
    "totally_nonexistent_library_xyz123.so" "The specified module could not be found." rfl

/-- C9 counterexample: it is not the case that every open, close, write and
read-loop read against the connection holds the mutex — the read issued by
a `readLoop` iteration (app.go line 113, `a.port.Read(buff)`) acquires no
lock. -/
theorem mutexSerialization_counterexample :
    ¬(holdsMutexForPortOps openSerialTrace = true ∧
      holdsMutexForPortOps closeSerialTrace = true ∧
      holdsMutexForPortOps sendDataTrace = true ∧
      holdsMutexForPortOps readLoopReadTrace = true) := by
  decide

/-- C9 amended: `OpenSerial`, `CloseSerial` and `SendData` each hold the
connection mutex across their port operation, but the background read
loop's `port.Read` does not hold the mutex. -/
theorem mutexSerialization_amended :
    holdsMutexForPortOps openSerialTrace = true ∧
    holdsMutexForPortOps closeSerialTrace = true ∧
    holdsMutexForPortOps sendDataTrace = true ∧
    holdsMutexForPortOps readLoopReadTrace = false := by
  decide

/-- C10: `OpenSerial` never rejects a call for an unrecognized
configuration value: any parity name outside the five recognised ones maps
to no parity, any stop-bit value outside 1/15/2 maps to one stop bit, and
the port is opened with those defaults (returning "Success" when the
underlying open succeeds). -/
theorem openSerial_unrecognized_defaults (openPort : String → Mode → Option String)
    (s : AppState) (portName : String) (baudRate dataBits stopBits : Int)
    (parityName : String) (hconn : s.isConnected = false)
    (hp : parityName ≠ "None" ∧ parityName ≠ "Odd" ∧ parityName ≠ "Even" ∧
      parityName ≠ "Mark" ∧ parityName ≠ "Space")
    (hs : stopBits ≠ 1 ∧ stopBits ≠ 15 ∧ stopBits ≠ 2) :
    ∃ m : Mode,
      (OpenSerial openPort s portName baudRate dataBits stopBits parityName).2.2 = some m ∧
      m.parity = Parity.noParity ∧
      m.stopBits = StopBits.oneStopBit ∧
      (openPort portName m = none →
        (OpenSerial openPort s portName baudRate dataBits stopBits parityName).2.1 =
          "Success" ∧
        (OpenSerial openPort s portName baudRate dataBits stopBits
          parityName).1.isConnected = true) := by
  obtain ⟨hp1, hp2, hp3, hp4, hp5⟩ := hp
  obtain ⟨hs1, hs2, hs3⟩ := hs
  have hpar : mapParity parityName = Parity.noParity := by
    simp [mapParity, hp1, hp2, hp3, hp4, hp5]
  have hstp : mapStopBits stopBits = StopBits.oneStopBit := by
    simp [mapStopBits, hs1, hs2, hs3]
  refine ⟨Mode.mk baudRate dataBits (mapParity parityName) (mapStopBits stopBits),
    ?_, hpar, hstp, ?_⟩
  · unfold OpenSerial
    rw [if_neg (by simp [hconn])]
    cases hop : openPort portName
        (Mode.mk baudRate dataBits (mapParity parityName) (mapStopBits stopBits)) <;>
      simp [hop]
  · intro hopen
    unfold OpenSerial
    rw [if_neg (by simp [hconn])]
    simp [hopen]

/-- C10 witness: with parity name "Bogus" and stop-bit value 7 on a
disconnected session, the port is opened with no parity and one stop bit,
and the call returns "Success". -/
theorem openSerial_unrecognized_defaults_witness :
    ∃ m : Mode,
      (OpenSerial (fun _ _ => none) ⟨false, false⟩ "COM3" 9600 8 7 "Bogus").2.2 = some m ∧
      m.parity = Parity.noParity ∧
      m.stopBits = StopBits.oneStopBit ∧
      ((fun (_ : String) (_ : Mode) => (none : Option String)) "COM3" m = none →
        (OpenSerial (fun _ _ => none) ⟨false, false⟩ "COM3" 9600 8 7 "Bogus").2.1 =
          "Success" ∧
        (OpenSerial (fun _ _ => none) ⟨false, false⟩ "COM3" 9600 8 7
          "Bogus").1.isConnected = true) :=
  openSerial_unrecognized_defaults (fun _ _ => none) ⟨false, false⟩ "COM3" 9600 8 7
    "Bogus" rfl (by refine ⟨?_, ?_, ?_, ?_, ?_⟩ <;> decide)
    (by refine ⟨?_, ?_, ?_⟩ <;> decide)

end SerialAssistant
